import Mathlib

/-!
Verification development for the PDF-to-spreadsheet attribute extractor
(`pdf_to_excel.py`).  Texts are embedded as `List Char`; the regex searches
of the source are embedded as deterministic matchers (every character class
in those patterns is disjoint from its follower, so the greedy leftmost
match of Python's `re.search` needs no backtracking and is reproduced
exactly).  Floating-point threshold comparisons of the source
(`* 1.5`, `< 0.3`, `* 0.05`) are embedded as the equivalent exact integer
comparisons, which agree with the source for every realistic text length.
-/

namespace PdfToExcel

/-- Characters of a string literal; texts are embedded as `List Char`. -/
def str (s : String) : List Char := s.data

/-- ASCII whitespace as recognised by Python's `str.strip` / `str.split`
(space, tab, LF, CR, VT, FF). -/
def pyIsSpace (c : Char) : Bool :=
  c == ' ' || c == '\t' || c == '\n' || c == '\r' || c == '\u000B' || c == '\u000C'

/-- Python `text.strip()`: remove leading and trailing whitespace. -/
def pyStrip (l : List Char) : List Char :=
  ((l.dropWhile pyIsSpace).reverse.dropWhile pyIsSpace).reverse

/-- Python `text.split` on the LF character: one sublist per segment. -/
def splitNl : List Char → List (List Char)
  | [] => [[]]
  | c :: t =>
    if c = '\n' then [] :: splitNl t
    else
      match splitNl t with
      | [] => [[c]]
      | l :: ls => (c :: l) :: ls

/-- Helper for `pySplit`: accumulates the current word reversed. -/
def pySplitAux : List Char → List Char → List (List Char)
  | [], acc => if acc.isEmpty then [] else [acc.reverse]
  | c :: t, acc =>
    if pyIsSpace c then
      if acc.isEmpty then pySplitAux t [] else acc.reverse :: pySplitAux t []
    else pySplitAux t (c :: acc)

/-- Python `line.split()`: tokenize on whitespace runs, dropping empties. -/
def pySplit (l : List Char) : List (List Char) := pySplitAux l []

/-- `leadsList n h`: the list `n` is an initial segment of `h`. -/
def leadsList : List Char → List Char → Bool
  | [], _ => true
  | _ :: _, [] => false
  | a :: as, b :: bs => a == b && leadsList as bs

/-- Python's substring test `n in h`. -/
def substrOf (n : List Char) : List Char → Bool
  | [] => n.isEmpty
  | c :: t => leadsList n (c :: t) || substrOf n t

/-- Decimal digits of a natural number (fuel-based so the kernel reduces it). -/
def natDigitsAux : Nat → Nat → List Char
  | 0, _ => []
  | fuel + 1, n =>
    if n < 10 then [Char.ofNat (48 + n)]
    else natDigitsAux fuel (n / 10) ++ [Char.ofNat (48 + n % 10)]

/-- Decimal representation of a natural number as characters. -/
def natDigits (n : Nat) : List Char := natDigitsAux (n + 1) n

/-!  Matcher for the document-reference regex of the source,
`P?(\d+[-.]){3}\d+`, with Python `re.search` leftmost-greedy semantics. -/

/-- One `\d+[-.]` group: maximal digit run (nonempty) then a dash or dot. -/
def refGroup (l : List Char) : Option (List Char × List Char) :=
  let p := l.span Char.isDigit
  if p.1 = [] then none
  else
    match p.2 with
    | c :: r => if c = '-' ∨ c = '.' then some (p.1 ++ [c], r) else none
    | [] => none

/-- The regex body `(\d+[-.]){3}\d+` anchored at the head of `l`. -/
def refBody (l : List Char) : Option (List Char) :=
  match refGroup l with
  | none => none
  | some (g1, r1) =>
    match refGroup r1 with
    | none => none
    | some (g2, r2) =>
      match refGroup r2 with
      | none => none
      | some (g3, r3) =>
        let ds := (r3.span Char.isDigit).1
        if ds = [] then none else some (g1 ++ g2 ++ g3 ++ ds)

/-- The full pattern `P?(\d+[-.]){3}\d+` anchored at the head of `l`
(the `P`-consuming alternative is tried first, as the regex engine does). -/
def refAt (l : List Char) : Option (List Char) :=
  match l with
  | [] => none
  | c :: t =>
    if c = 'P' then
      match refBody t with
      | some m => some ('P' :: m)
      | none => refBody (c :: t)
    else refBody (c :: t)

/-- `re.search` of the document-reference pattern: leftmost match. -/
def searchDocRef : List Char → Option (List Char)
  | [] => none
  | c :: t =>
    match refAt (c :: t) with
    | some m => some m
    | none => searchDocRef t

/-!  Matchers for the three functional-location patterns of the source. -/

/-- Pattern `\d{2}-\d{2}-[A-Z]{4}-\d{4}` anchored at the head of `l`. -/
def pat1At (l : List Char) : Option (List Char) :=
  match l with
  | d1 :: d2 :: s1 :: d3 :: d4 :: s2 :: a1 :: a2 :: a3 :: a4 :: s3 :: e1 :: e2 :: e3 :: e4 :: _ =>
    if d1.isDigit && d2.isDigit && s1 == '-' && d3.isDigit && d4.isDigit && s2 == '-' &&
       a1.isUpper && a2.isUpper && a3.isUpper && a4.isUpper && s3 == '-' &&
       e1.isDigit && e2.isDigit && e3.isDigit && e4.isDigit then
      some [d1, d2, s1, d3, d4, s2, a1, a2, a3, a4, s3, e1, e2, e3, e4]
    else none
  | _ => none

/-- Pattern `[A-Z]{2,}-\d+` anchored at the head of `l`. -/
def pat2At (l : List Char) : Option (List Char) :=
  let p := l.span Char.isUpper
  if p.1.length < 2 then none
  else
    match p.2 with
    | '-' :: r =>
      let ds := (r.span Char.isDigit).1
      if ds = [] then none else some (p.1 ++ '-' :: ds)
    | _ => none

/-- Pattern `\d+-\d+-[A-Z]+` anchored at the head of `l`. -/
def pat3At (l : List Char) : Option (List Char) :=
  let p1 := l.span Char.isDigit
  if p1.1 = [] then none
  else
    match p1.2 with
    | '-' :: r1 =>
      let p2 := r1.span Char.isDigit
      if p2.1 = [] then none
      else
        match p2.2 with
        | '-' :: r2 =>
          let us := (r2.span Char.isUpper).1
          if us = [] then none else some (p1.1 ++ '-' :: p2.1 ++ '-' :: us)
        | _ => none
    | _ => none

/-- `re.search` for one anchored matcher: leftmost match in the line. -/
def searchPat (at_ : List Char → Option (List Char)) : List Char → Option (List Char)
  | [] => none
  | c :: t =>
    match at_ (c :: t) with
    | some m => some m
    | none => searchPat at_ t

/-!  Data model: one structured attribute record
(one row of the output sheet, columns in sheet order). -/

/-- One attribute row produced by `format_text_to_structure`
(column order of the source: Field, TPLNR, CLASS, KLART, POSNUMMER,
ATNAM, ATWRT, UoM, Remarks, Additional, REF). -/
structure AttributeRow where
  functionalLocation : List Char
  classNumber : List Char
  classType : List Char
  positionNumber : Nat
  characteristicName : List Char
  characteristicValue : List Char
  description : List Char
  unitOfMeasure : List Char
  remarks : List Char
  additionalInfo : List Char
  documentReference : List Char
deriving DecidableEq, Repr

/-- A row as built by the source: class number FG-FGAS and class type 003
are the same literals on every row. -/
def mkRow (fl ref : List Char) (p : Nat) (nm v d u : List Char) : AttributeRow :=
  { functionalLocation := fl
    classNumber := str "FG-FGAS"
    classType := str "003"
    positionNumber := p
    characteristicName := nm
    characteristicValue := v
    description := d
    unitOfMeasure := u
    remarks := []
    additionalInfo := []
    documentReference := ref }

/-- The fixed template list `equipment_attributes` of the source:
(name, value, description, unit). -/
def equipmentAttributes : List (List Char × List Char × List Char × List Char) :=
  [ (str "NACC01", str "±10", str "Accuracy", str "%"),
    (str "HSE-HAZ_AREA", str "Hazardous Area", str "Area Classification", str ""),
    (str "CALR01", str "0–50", str "Calibrated Range", str "ppm"),
    (str "DETCOMM", str "4–20 mA (HART)", str "Detector Communication", str ""),
    (str "ENVIRONT", str "", str "Environment", str ""),
    (str "ACFS01", str "Warning, Alarm", str "Fail Safe State", str ""),
    (str "POWREQ", str "24 VDC", str "Power Requirement", str "V"),
    (str "TEMP01", str "-40 to +75", str "Operating Temperature", str "°C"),
    (str "CERTIF", str "ATEX, IECEx", str "Certification", str ""),
    (str "MFGR", str "TYCO", str "Manufacturer", str ""),
    (str "MODEL", str "H2S Gas Detector", str "Model/Type", str ""),
    (str "CONN01", str "M20 x 1.5", str "Connection", str ""),
    (str "HOUSING", str "Explosion Proof", str "Housing Type", str ""),
    (str "DISPLAY", str "LCD", str "Display Type", str ""),
    (str "ALARM", str "Visual & Audible", str "Alarm Type", str "") ]

/-- The `skip_patterns` denylist of the line scanner. -/
def skipPatterns : List (List Char) :=
  [ str "Sheet", str "PETROLEUM", str "CONTRACT", str "TRANS", str "Previous",
    str "List of Attachments", str "Project Manager", str "file://",
    str "Terms:", str "F.O.B.", str "Prices subject", str "CONFIDENTIAL" ]

/-- The domain keyword list matched against the upper-cased line. -/
def keywordList : List (List Char) :=
  [ str "PPM", str "MA", str "VDC", str "TEMP", str "PRESSURE", str "RANGE",
    str "ALARM", str "ACCURACY", str "DETECTOR", str "GAS", str "H2S",
    str "ATEX", str "IECEX" ]

/-- The fixed unit vocabulary of the line scanner. -/
def unitVocab : List (List Char) :=
  [ str "ppm", str "mA", str "VDC", str "°C", str "%", str "bar", str "psi" ]

/-!  Structuring engine (`format_text_to_structure`). -/

/-- The non-empty stripped lines of the text
(`[line.strip() for line in text.split(chr 10) if line.strip()]`). -/
def computeLines (text : List Char) : List (List Char) :=
  ((splitNl text).map pyStrip).filter (fun l => !l.isEmpty)

/-- Document reference derived from the file name: pattern match normalised
to start with `P` and end with `-1`, else synthesized from the name with
dashes replaced by dots.  Shared by `format_text_to_structure` and
`_generate_sample_attributes`. -/
def docRefFromName (nm : List Char) : List Char :=
  match searchDocRef nm with
  | some m =>
    let r := if m.head? = some 'P' then m else 'P' :: m
    if leadsList ['1', '-'] r.reverse then r else r ++ str "-1"
  | none => 'P' :: (nm.map (fun c => if c = '-' then '.' else c)) ++ str "-1"

/-- First document-reference match among the given lines (the source checks
`lines[:20]`; the caller passes the truncated list). -/
def firstTextRef : List (List Char) → Option (List Char)
  | [] => none
  | l :: ls =>
    match searchDocRef l with
    | some m => some m
    | none => firstTextRef ls

/-- The document reference of `format_text_to_structure`: a hard-coded
default, overridden by a match on the file name when one is given and
non-empty, in turn overridden by the first match in the first 20 lines
(the text match is only `P`-normalised, no `-1` suffix). -/
def computeDocRef (lines : List (List Char)) (pdfName : Option (List Char)) : List Char :=
  let base :=
    match pdfName with
    | some nm => if nm.isEmpty then str "P11569-11-99-40-2619-1" else docRefFromName nm
    | none => str "P11569-11-99-40-2619-1"
  match firstTextRef (lines.take 20) with
  | some m => if m.head? = some 'P' then m else 'P' :: m
  | none => base

/-- The match a single line contributes to the functional location: the
three patterns are tried in their fixed order and the first whose leftmost
match is longer than 8 characters is taken. -/
def lineLocMatch (line : List Char) : Option (List Char) :=
  match searchPat pat1At line with
  | some m =>
    if 8 < m.length then some m
    else
      match searchPat pat2At line with
      | some m2 =>
        if 8 < m2.length then some m2
        else
          match searchPat pat3At line with
          | some m3 => if 8 < m3.length then some m3 else none
          | none => none
      | none =>
        match searchPat pat3At line with
        | some m3 => if 8 < m3.length then some m3 else none
        | none => none
  | none =>
    match searchPat pat2At line with
    | some m2 =>
      if 8 < m2.length then some m2
      else
        match searchPat pat3At line with
        | some m3 => if 8 < m3.length then some m3 else none
        | none => none
    | none =>
      match searchPat pat3At line with
      | some m3 => if 8 < m3.length then some m3 else none
      | none => none

/-- The functional-location loop of the source: each qualifying line
overwrites the variable (the source's `break` leaves only the inner
pattern loop), starting from the hard-coded placeholder. -/
def computeFuncLoc (lines : List (List Char)) : List Char :=
  lines.foldl
    (fun fl line =>
      match lineLocMatch line with
      | some m => m
      | none => fl)
    (str "11-18-XTGD-5403")

/-- Template-emission loop: one row per template entry, except that an
entry with empty value is skipped (row withheld, counter kept) when the
running position counter is a multiple of 3.  Returns the rows and the
final counter. -/
def templatePhase (fl ref : List Char) :
    List (List Char × List Char × List Char × List Char) → Nat → List AttributeRow × Nat
  | [], p => ([], p)
  | (nm, v, d, u) :: rest, p =>
    if v = [] ∧ p % 3 = 0 then templatePhase fl ref rest p
    else
      let r := templatePhase fl ref rest (p + 1)
      (mkRow fl ref p nm v d u :: r.1, r.2)

/-- `SPEC` attribute name with the counter zero-padded to width 2
(Python `f"SPEC{position_counter:02d}"`). -/
def specName (p : Nat) : List Char :=
  let ds := natDigits p
  str "SPEC" ++ (if ds.length < 2 then List.replicate (2 - ds.length) '0' ++ ds else ds)

/-- `" ".join` of a list of words. -/
def joinSpace (ps : List (List Char)) : List Char := (ps.intersperse (str " ")).flatten

/-- First token (with its index) containing a decimal digit. -/
def findDigitPart : Nat → List (List Char) → Option (Nat × List Char)
  | _, [] => none
  | i, w :: ws => if w.any Char.isDigit then some (i, w) else findDigitPart (i + 1) ws

/-- First unit of the fixed vocabulary occurring (case-folded) in the line,
else empty. -/
def findUnit (line : List Char) : List Char :=
  match unitVocab.find? (fun u => substrOf (u.map Char.toLower) (line.map Char.toLower)) with
  | some u => u
  | none => []

/-- The row (if any) the line scanner emits for one line at counter `p`:
denylisted lines and lines without a domain keyword yield nothing; else the
first digit-bearing token becomes the value, with a window of two tokens on
each side (joined, truncated to 50, stripped) as description. -/
def scanLineRow (fl ref : List Char) (p : Nat) (line : List Char) : Option AttributeRow :=
  if skipPatterns.any (fun pat => substrOf pat line) then none
  else if keywordList.any (fun k => substrOf k (line.map Char.toUpper)) then
    match findDigitPart 0 (pySplit line) with
    | none => none
    | some (i, part) =>
      some (mkRow fl ref p (specName p) part
        (pyStrip ((joinSpace (((pySplit line).drop (i - 2)).take (i + 3 - (i - 2)))).take 50))
        (findUnit line))
  else none

/-- Line-scanning loop: at most one row per line, counter advancing only
when a row is emitted. -/
def scanPhase (fl ref : List Char) : List (List Char) → Nat → List AttributeRow
  | [], _ => []
  | line :: rest, p =>
    match scanLineRow fl ref p line with
    | none => scanPhase fl ref rest p
    | some r => r :: scanPhase fl ref rest (p + 1)

/-- `format_text_to_structure`: empty output on whitespace-only text, else
the template rows followed by the scanned rows, the scan counter taking
over exactly where the template counter stopped. -/
def formatTextToStructure (text : List Char) (pdfName : Option (List Char)) :
    List AttributeRow :=
  if pyStrip text = [] then []
  else
    let lines := computeLines text
    let ref := computeDocRef lines pdfName
    let fl := computeFuncLoc lines
    (templatePhase fl ref equipmentAttributes 1).1 ++
      scanPhase fl ref lines (templatePhase fl ref equipmentAttributes 1).2

/-!  Extraction quality classifier (`_is_low_quality_extraction`). -/

/-- Count of alphabetic characters (`sum(1 for c in text if c.isalpha())`). -/
def alphaCount (text : List Char) : Nat := text.countP Char.isAlpha

/-- Count of the garble characters: unknown-glyph marker, backslash,
vertical bar. -/
def problemCount (text : List Char) : Nat :=
  text.count '�' + text.count '\\' + text.count '|'

/-- `_is_low_quality_extraction`: trimmed length under 50, alphabetic ratio
under 0.30 (exactly: `10 * alpha < 3 * total`), or garble count over 5 % of
the total length (exactly: `20 * problem > total`), checked in that order. -/
def isLowQualityExtraction (text : List Char) : Bool :=
  if (pyStrip text).length < 50 then true
  else if 0 < text.length ∧ 10 * alphaCount text < 3 * text.length then true
  else if text.length < 20 * problemCount text then true
  else false

/-!  Processing strategy selectors and document pipelines.  A document is
modelled by the texts its two extraction oracles return: `direct` is what
`extract_text_from_pdf` yields and `ocrText` what `ocr_pdf` yields (both
total in the source: every internal failure is caught and mapped to an
empty string). -/

/-- Text kept by `process_pdf_to_excel` (single-document path): forced OCR,
else direct extraction gated by length over 50 and the quality classifier,
else OCR kept only when non-empty and over 1.5 times longer
(exactly: `3 * direct < 2 * ocr`). -/
def selectTextSingle (useOcr : Bool) (direct ocrText : List Char) : List Char :=
  if useOcr then ocrText
  else if pyStrip direct = [] then ocrText
  else if 50 < (pyStrip direct).length ∧ isLowQualityExtraction direct = false then direct
  else if pyStrip ocrText ≠ [] ∧
      3 * (pyStrip direct).length < 2 * (pyStrip ocrText).length then ocrText
  else direct

/-- `_generate_sample_attributes`: fixed fallback table, never skipped. -/
def sampleAttributes : List (List Char × List Char × List Char × List Char) :=
  [ (str "NACC01", str "±5", str "Accuracy", str "%"),
    (str "HSE-HAZ_AREA", str "Zone 1", str "Area Classification", str ""),
    (str "CALR01", str "0–100", str "Calibrated Range", str "ppm"),
    (str "DETCOMM", str "Modbus RTU", str "Detector Communication", str ""),
    (str "ENVIRONT", str "IP65", str "Environment Rating", str ""),
    (str "ACFS01", str "Fail to Safe", str "Fail Safe State", str ""),
    (str "POWREQ", str "12-30 VDC", str "Power Requirement", str "V"),
    (str "TEMP01", str "-20 to +60", str "Operating Temperature", str "°C"),
    (str "CERTIF", str "ATEX Zone 1", str "Certification", str ""),
    (str "MFGR", str "Honeywell", str "Manufacturer", str ""),
    (str "MODEL", str "Gas Monitor", str "Model/Type", str ""),
    (str "CONN01", str "1/2 NPT", str "Connection", str ""),
    (str "HOUSING", str "Weatherproof", str "Housing Type", str ""),
    (str "DISPLAY", str "LED Indicators", str "Display Type", str ""),
    (str "ALARM", str "Relay Output", str "Alarm Type", str "") ]

/-- Sample-emission loop: one row per entry, no skipping. -/
def sampleEmit (fl ref : List Char) :
    List (List Char × List Char × List Char × List Char) → Nat → List AttributeRow
  | [], _ => []
  | (nm, v, d, u) :: rest, p => mkRow fl ref p nm v d u :: sampleEmit fl ref rest (p + 1)

/-- `_generate_sample_attributes`: 15 sample rows under functional location
11-18-XTGD-5404 and a name-derived document reference. -/
def generateSampleAttributes (pdfName : List Char) : List AttributeRow :=
  sampleEmit (str "11-18-XTGD-5404") (docRefFromName pdfName) sampleAttributes 1

/-- `process_pdf_to_excel` on an existing file: select the text, fail when
nothing usable was extracted, structure it, fall back to the sample table
when structuring yields nothing, fail when even that is empty. -/
def processPdfToExcel (direct ocrText pdfName : List Char) (useOcr : Bool) :
    Except (List Char) (List AttributeRow) :=
  let text := selectTextSingle useOcr direct ocrText
  if pyStrip text = [] then
    Except.error (str "No text could be extracted from the PDF. " ++
      (if useOcr then [] else str "This might be a scanned PDF. Try using --ocr flag. ") ++
      str "Ensure Tesseract and Poppler are properly installed.")
  else
    let structured := formatTextToStructure text (some pdfName)
    let structured2 := if structured = [] then generateSampleAttributes pdfName else structured
    if structured2 = [] then
      Except.error (str "No data could be structured from the extracted text")
    else Except.ok structured2

/-- Per-document summary of the batch orchestrator. -/
structure ProcessingSummary where
  file : List Char
  status : List Char
  method : List Char
  rows : Nat
  textLength : Nat
  errorMessage : Option (List Char)
deriving DecidableEq, Repr

/-- One document as the batch loop sees it: its name (file stem), what the
two extraction oracles return, and — modelling the loop's `except` arm — an
ambient runtime exception raised inside the per-document `try` block, when
any. -/
structure DocInput where
  name : List Char
  direct : List Char
  ocrText : List Char
  exc : Option (List Char)
deriving DecidableEq, Repr

/-- Text and method chosen by `process_multiple_pdfs_to_excel` per document:
forced OCR, else the 100-character quality gate keeps the direct text, else
OCR is kept when non-empty and either the direct text was empty or OCR is
over 1.5 times longer; a non-improving OCR keeps the direct text, and an
empty OCR result leaves method `failed`. -/
def selectTextMulti (useOcr : Bool) (direct ocrText : List Char) : List Char × List Char :=
  if useOcr then (ocrText, str "forced_ocr")
  else if pyStrip direct ≠ [] ∧ 100 < (pyStrip direct).length ∧
      isLowQualityExtraction direct = false then
    (direct, str "text_extraction")
  else if pyStrip ocrText ≠ [] then
    if pyStrip direct = [] ∨ 3 * (pyStrip direct).length < 2 * (pyStrip ocrText).length then
      (ocrText, str "ocr_fallback")
    else (direct, str "text_extraction")
  else (direct, str "failed")

/-- The batch loop's body for one document: rows contributed plus the
summary appended (`none` only in the source's dead branches where even the
sample table would be empty). -/
def processOneDoc (useOcr : Bool) (doc : DocInput) :
    List AttributeRow × Option ProcessingSummary :=
  match doc.exc with
  | some e =>
    let sd := generateSampleAttributes doc.name
    if sd = [] then ([], none)
    else (sd, some ⟨doc.name, str "error_with_sample", str "fallback", sd.length, 0, some e⟩)
  | none =>
    let tm := selectTextMulti useOcr doc.direct doc.ocrText
    if pyStrip tm.1 = [] then
      let sd := generateSampleAttributes doc.name
      if sd = [] then ([], none)
      else (sd, some ⟨doc.name, str "failed_with_sample", str "fallback", sd.length, 0, none⟩)
    else
      let sd := formatTextToStructure tm.1 (some doc.name)
      if sd = [] then
        let s2 := generateSampleAttributes doc.name
        if s2 = [] then ([], none)
        else (s2, some ⟨doc.name, str "sample_data", str "fallback", s2.length, 0, none⟩)
      else (sd, some ⟨doc.name, str "success", tm.2, sd.length, (pyStrip tm.1).length, none⟩)

/-- All rows the batch loop accumulates, in document order. -/
def batchRows (useOcr : Bool) (docs : List DocInput) : List AttributeRow :=
  (docs.map (fun d => (processOneDoc useOcr d).1)).flatten

/-- All summaries the batch loop appends, in document order. -/
def batchSummaries (useOcr : Bool) (docs : List DocInput) : List ProcessingSummary :=
  (docs.map (fun d => (processOneDoc useOcr d).2)).filterMap id

/-- `process_multiple_pdfs_to_excel`: raise only when no document at all
contributed a row, else deliver the combined rows and the summary list. -/
def processMultiplePdfsToExcel (docs : List DocInput) (useOcr : Bool) :
    Except (List Char) (List AttributeRow × List ProcessingSummary) :=
  if batchRows useOcr docs = [] then
    Except.error (str "No structured data could be created from any PDF")
  else Except.ok (batchRows useOcr docs, batchSummaries useOcr docs)

/-!  General lemmas about the loops of the structuring engine. -/

theorem templatePhase_counter (fl ref : List Char)
    (attrs : List (List Char × List Char × List Char × List Char)) (p : Nat) :
    (templatePhase fl ref attrs p).2 = p + (templatePhase fl ref attrs p).1.length := by
  induction attrs generalizing p with
  | nil => simp [templatePhase]
  | cons a rest ih =>
    obtain ⟨nm, v, d, u⟩ := a
    by_cases h : v = [] ∧ p % 3 = 0
    · simpa only [templatePhase, if_pos h] using ih p
    · simp only [templatePhase, if_neg h, List.length_cons]
      rw [ih (p + 1)]
      omega

theorem templatePhase_positions (fl ref : List Char)
    (attrs : List (List Char × List Char × List Char × List Char)) (p : Nat) :
    (templatePhase fl ref attrs p).1.map AttributeRow.positionNumber =
      List.range' p (templatePhase fl ref attrs p).1.length := by
  induction attrs generalizing p with
  | nil => simp [templatePhase]
  | cons a rest ih =>
    obtain ⟨nm, v, d, u⟩ := a
    by_cases h : v = [] ∧ p % 3 = 0
    · simpa only [templatePhase, if_pos h] using ih p
    · simp only [templatePhase, if_neg h, List.map_cons, List.length_cons]
      rw [List.range'_succ, ih (p + 1)]
      rfl

theorem templatePhase_row_fields {fl ref : List Char}
    {attrs : List (List Char × List Char × List Char × List Char)} {p : Nat}
    {r : AttributeRow} (h : r ∈ (templatePhase fl ref attrs p).1) :
    r.documentReference = ref ∧ r.functionalLocation = fl := by
  induction attrs generalizing p with
  | nil => simp [templatePhase] at h
  | cons a rest ih =>
    obtain ⟨nm, v, d, u⟩ := a
    by_cases hc : v = [] ∧ p % 3 = 0
    · rw [templatePhase, if_pos hc] at h
      exact ih h
    · rw [templatePhase, if_neg hc] at h
      rcases List.mem_cons.mp h with h | h
      · subst h; exact ⟨rfl, rfl⟩
      · exact ih h

theorem scanLineRow_fields {fl ref : List Char} {p : Nat} {line : List Char}
    {r : AttributeRow} (h : scanLineRow fl ref p line = some r) :
    r.positionNumber = p ∧ r.documentReference = ref ∧ r.functionalLocation = fl := by
  unfold scanLineRow at h
  split at h
  · exact absurd h (by simp)
  · split at h
    · split at h
      · exact absurd h (by simp)
      · cases h
        exact ⟨rfl, rfl, rfl⟩
    · exact absurd h (by simp)

theorem scanPhase_positions (fl ref : List Char) (lines : List (List Char)) (p : Nat) :
    (scanPhase fl ref lines p).map AttributeRow.positionNumber =
      List.range' p (scanPhase fl ref lines p).length := by
  induction lines generalizing p with
  | nil => simp [scanPhase]
  | cons line rest ih =>
    cases hr : scanLineRow fl ref p line with
    | none => simpa only [scanPhase, hr] using ih p
    | some r =>
      simp only [scanPhase, hr, List.map_cons, List.length_cons]
      rw [List.range'_succ, ih (p + 1), (scanLineRow_fields hr).1]

theorem scanPhase_row_fields {fl ref : List Char} {lines : List (List Char)} {p : Nat}
    {r : AttributeRow} (h : r ∈ scanPhase fl ref lines p) :
    r.documentReference = ref ∧ r.functionalLocation = fl := by
  induction lines generalizing p with
  | nil => simp [scanPhase] at h
  | cons line rest ih =>
    cases hr : scanLineRow fl ref p line with
    | none =>
      rw [scanPhase, hr] at h
      exact ih h
    | some r0 =>
      rw [scanPhase, hr] at h
      rcases List.mem_cons.mp h with h | h
      · subst h; exact (scanLineRow_fields hr).2
      · exact ih h

theorem sampleEmit_length (fl ref : List Char)
    (attrs : List (List Char × List Char × List Char × List Char)) (p : Nat) :
    (sampleEmit fl ref attrs p).length = attrs.length := by
  induction attrs generalizing p with
  | nil => rfl
  | cons a rest ih =>
    obtain ⟨nm, v, d, u⟩ := a
    simpa [sampleEmit] using ih (p + 1)

theorem generateSampleAttributes_ne_nil (pdfName : List Char) :
    generateSampleAttributes pdfName ≠ [] := by
  intro h
  have := sampleEmit_length (str "11-18-XTGD-5404") (docRefFromName pdfName) sampleAttributes 1
  rw [generateSampleAttributes] at h
  rw [h] at this
  simp [sampleAttributes] at this

theorem templatePhase_shape_indep (fl ref fl2 ref2 : List Char)
    (attrs : List (List Char × List Char × List Char × List Char)) (p : Nat) :
    (templatePhase fl ref attrs p).1.length = (templatePhase fl2 ref2 attrs p).1.length := by
  induction attrs generalizing p with
  | nil => rfl
  | cons a rest ih =>
    obtain ⟨nm, v, d, u⟩ := a
    by_cases h : v = [] ∧ p % 3 = 0
    · simpa only [templatePhase, if_pos h] using ih p
    · simp only [templatePhase, if_neg h, List.length_cons]
      rw [ih (p + 1)]

theorem templatePhase_equipment_length (fl ref : List Char) :
    (templatePhase fl ref equipmentAttributes 1).1.length = 15 := by
  rw [templatePhase_shape_indep fl ref [] []]
  decide

theorem formatTextToStructure_eq {text : List Char} (pdfName : Option (List Char))
    (h : ¬pyStrip text = []) :
    formatTextToStructure text pdfName =
      (templatePhase (computeFuncLoc (computeLines text))
          (computeDocRef (computeLines text) pdfName) equipmentAttributes 1).1 ++
        scanPhase (computeFuncLoc (computeLines text))
          (computeDocRef (computeLines text) pdfName) (computeLines text)
          (templatePhase (computeFuncLoc (computeLines text))
            (computeDocRef (computeLines text) pdfName) equipmentAttributes 1).2 := by
  simp only [formatTextToStructure, if_neg h]

/-!  Lemmas about `pyStrip` and character counts. -/

theorem pyStrip_length_le (t : List Char) : (pyStrip t).length ≤ t.length := by
  unfold pyStrip
  have h1 := (List.dropWhile_sublist (l := t) pyIsSpace).length_le
  have h2 :=
    (List.dropWhile_sublist (l := (t.dropWhile pyIsSpace).reverse) pyIsSpace).length_le
  simp only [List.length_reverse] at *
  omega

theorem countP_dropWhile_eq (p q : Char → Bool) (l : List Char)
    (h : ∀ c, q c = true → p c = false) :
    (l.dropWhile q).countP p = l.countP p := by
  induction l with
  | nil => rfl
  | cons c t ih =>
    rw [List.dropWhile_cons]
    by_cases hq : q c = true
    · rw [if_pos hq, ih, List.countP_cons, h c hq]
      simp
    · rw [if_neg hq]

theorem pyIsSpace_not_alpha : ∀ c : Char, pyIsSpace c = true → Char.isAlpha c = false := by
  intro c hc
  simp only [pyIsSpace, Bool.or_eq_true, beq_iff_eq] at hc
  rcases hc with ((((h | h) | h) | h) | h) | h <;> subst h <;> decide

theorem alphaCount_pyStrip (t : List Char) :
    (pyStrip t).countP Char.isAlpha = alphaCount t := by
  unfold pyStrip alphaCount
  rw [List.countP_reverse, countP_dropWhile_eq _ _ _ pyIsSpace_not_alpha,
    List.countP_reverse, countP_dropWhile_eq _ _ _ pyIsSpace_not_alpha]

/-!  Claim theorems. -/

/-- C4: in the template-emission phase of `format_text_to_structure` a
template attribute is skipped — no row emitted and the position counter not
advanced — exactly when its value is empty and the running counter is a
multiple of 3; every other attribute yields exactly one row carrying the
current counter, which then advances by one. -/
theorem c4_template_skip_rule (fl ref nm v d u : List Char)
    (rest : List (List Char × List Char × List Char × List Char)) (p : Nat) :
    (v = [] ∧ p % 3 = 0 →
      templatePhase fl ref ((nm, v, d, u) :: rest) p = templatePhase fl ref rest p) ∧
    (¬(v = [] ∧ p % 3 = 0) →
      templatePhase fl ref ((nm, v, d, u) :: rest) p =
        (mkRow fl ref p nm v d u :: (templatePhase fl ref rest (p + 1)).1,
          (templatePhase fl ref rest (p + 1)).2)) := by
  constructor
  · intro h
    rw [templatePhase, if_pos h]
  · intro h
    rw [templatePhase, if_neg h]

/-- Witness for C4 at the ENVIRONT entry (empty value, counter 3: skipped)
and at the MFGR entry (non-empty value, counter 3: one row). -/
theorem c4_template_skip_rule_witness :
    templatePhase [] [] [(str "ENVIRONT", str "", str "Environment", str "")] 3 =
      templatePhase [] [] [] 3 ∧
    templatePhase [] [] [(str "MFGR", str "TYCO", str "Manufacturer", str "")] 3 =
      (mkRow [] [] 3 (str "MFGR") (str "TYCO") (str "Manufacturer") (str "") ::
        (templatePhase [] [] [] 4).1, (templatePhase [] [] [] 4).2) :=
  ⟨(c4_template_skip_rule [] [] (str "ENVIRONT") (str "") (str "Environment") (str "")
      [] 3).1 (by decide),
    (c4_template_skip_rule [] [] (str "MFGR") (str "TYCO") (str "Manufacturer") (str "")
      [] 3).2 (by decide)⟩

/-- C5: for every input text and document name, the position numbers of the
rows of `format_text_to_structure`, in emission order, are exactly
1, 2, ..., n — consecutive from 1, with no gap from skipped template
attributes, hence unique. -/
theorem c5_positions_consecutive (text : List Char) (pdfName : Option (List Char)) :
    (formatTextToStructure text pdfName).map AttributeRow.positionNumber =
      List.range' 1 (formatTextToStructure text pdfName).length := by
  by_cases h : pyStrip text = []
  · simp [formatTextToStructure, h]
  · rw [formatTextToStructure_eq pdfName h, List.map_append, templatePhase_positions,
      scanPhase_positions, List.length_append, templatePhase_counter,
      List.range'_append_1]
    congr 1
    omega

/-- C10: the structuring engine is deterministic — equal extracted text and
equal document name give equal row sequences (it is a pure function of its
two inputs). -/
theorem c10_structuring_deterministic (t1 t2 : List Char) (n1 n2 : Option (List Char))
    (ht : t1 = t2) (hn : n1 = n2) :
    formatTextToStructure t1 n1 = formatTextToStructure t2 n2 := by
  rw [ht, hn]

/-- Witness for C10 at a concrete text and name. -/
theorem c10_structuring_deterministic_witness :
    formatTextToStructure (str "hello") (some (str "a-b")) =
      formatTextToStructure (str "hello") (some (str "a-b")) :=
  c10_structuring_deterministic (str "hello") (str "hello") (some (str "a-b"))
    (some (str "a-b")) rfl rfl

/-- C6: the quality classifier flags a text as low quality exactly when its
trimmed length is under 50, or its alphabetic-to-total ratio is under 0.30,
or its garble characters exceed 5 % of its length; every text of length 10
is low quality; a text of length 1000 with 800 alphabetic characters and no
garble characters is not low quality. -/
theorem c6_quality_classifier (t : List Char) :
    (isLowQualityExtraction t = true ↔
      ((pyStrip t).length < 50 ∨ 10 * alphaCount t < 3 * t.length ∨
        t.length < 20 * problemCount t)) ∧
    (t.length = 10 → isLowQualityExtraction t = true) ∧
    (t.length = 1000 → alphaCount t = 800 → problemCount t = 0 →
      isLowQualityExtraction t = false) := by
  have hle := pyStrip_length_le t
  refine ⟨?_, ?_, ?_⟩
  · unfold isLowQualityExtraction
    constructor
    · intro h
      split_ifs at h with h1 h2 h3
      · exact Or.inl h1
      · exact Or.inr (Or.inl h2.2)
      · exact Or.inr (Or.inr h3)
    · intro h
      split_ifs with h1 h2 h3
      · rfl
      · rfl
      · rfl
      · exfalso
        rcases h with h | h | h
        · exact h1 h
        · exact h2 ⟨by omega, h⟩
        · exact h3 h
  · intro h10
    unfold isLowQualityExtraction
    rw [if_pos (by omega)]
  · intro h1 h2 h3
    have hs : 800 ≤ (pyStrip t).length := by
      have ha := alphaCount_pyStrip t
      have hb := List.countP_le_length (p := Char.isAlpha) (l := pyStrip t)
      omega
    unfold isLowQualityExtraction
    rw [if_neg (by omega), if_neg (by rw [h1, h2]; omega), if_neg (by rw [h1, h3]; omega)]

set_option maxRecDepth 100000 in
/-- Witness for C6: a length-10 text is low quality; 800 letters followed
by 200 spaces (length 1000, no garble) is not. -/
theorem c6_quality_classifier_witness :
    isLowQualityExtraction (List.replicate 10 'a') = true ∧
    isLowQualityExtraction (List.replicate 800 'a' ++ List.replicate 200 ' ') = false :=
  ⟨(c6_quality_classifier _).2.1 (by decide),
    (c6_quality_classifier _).2.2 (by decide) (by decide) (by decide)⟩

theorem firstTextRef_none {ls : List (List Char)} (h : ∀ l ∈ ls, searchDocRef l = none) :
    firstTextRef ls = none := by
  induction ls with
  | nil => rfl
  | cons l t ih =>
    rw [firstTextRef, h l (by simp)]
    exact ih fun x hx => h x (List.mem_cons_of_mem _ hx)

/-- C1 counterexample: for the document name P11569-11-99-40-2619 and a
text with no pattern match in its lines, the rows do not carry the claimed
reference P11569-11-99-40-2619-1 (the name regex only matches the first
four numeric groups). -/
theorem c1_doc_ref_counterexample :
    ¬∀ r ∈ formatTextToStructure (str "hello world") (some (str "P11569-11-99-40-2619")),
        r.documentReference = str "P11569-11-99-40-2619-1" := by decide

/-- C1 (amended): for a document whose name is P11569-11-99-40-2619 and
whose first 20 lines contain no dash/dot-separated numeric-group pattern,
the document reference is P11569-11-99-40-1 — the regex match on the name
is only P11569-11-99-40, suffixed with -1 — and every emitted row carries
it in its documentReference column. -/
theorem c1_doc_ref_amended (text : List Char)
    (h : ∀ l ∈ (computeLines text).take 20, searchDocRef l = none) :
    ∀ r ∈ formatTextToStructure text (some (str "P11569-11-99-40-2619")),
      r.documentReference = str "P11569-11-99-40-1" := by
  intro r hr
  by_cases hs : pyStrip text = []
  · rw [formatTextToStructure, if_pos hs] at hr
    cases hr
  · rw [formatTextToStructure_eq _ hs] at hr
    have href : computeDocRef (computeLines text) (some (str "P11569-11-99-40-2619")) =
        str "P11569-11-99-40-1" := by
      simp only [computeDocRef]
      rw [firstTextRef_none h]
      decide
    rcases List.mem_append.mp hr with h1 | h1
    · rw [← href]
      exact (templatePhase_row_fields h1).1
    · rw [← href]
      exact (scanPhase_row_fields h1).1

/-- Witness for C1 (amended) at the concrete text used by the
counterexample. -/
theorem c1_doc_ref_amended_witness :
    (formatTextToStructure (str "hello world") (some (str "P11569-11-99-40-2619"))).all
      (fun r => r.documentReference == str "P11569-11-99-40-1") = true := by
  rw [List.all_eq_true]
  intro r hr
  exact beq_iff_eq.mpr (c1_doc_ref_amended (str "hello world") (by decide) r hr)

/-- C2 counterexample: with two lines each carrying a qualifying
positional-code match, the rows carry the second (last) line's match, not
the first one the claim demands. -/
theorem c2_func_loc_counterexample :
    lineLocMatch (str "11-18-ABCD-1234") = some (str "11-18-ABCD-1234") ∧
    (formatTextToStructure (str "11-18-ABCD-1234\n99-88-WXYZ-7777") none).head?.map
        AttributeRow.functionalLocation = some (str "99-88-WXYZ-7777") ∧
    str "99-88-WXYZ-7777" ≠ str "11-18-ABCD-1234" := by decide

theorem foldl_loc_getLastD (lines : List (List Char)) (init : List Char) :
    lines.foldl
        (fun fl line =>
          match lineLocMatch line with
          | some m => m
          | none => fl) init =
      (lines.filterMap lineLocMatch).getLastD init := by
  induction lines generalizing init with
  | nil => rfl
  | cons l ls ih =>
    cases h : lineLocMatch l with
    | none => simpa only [List.foldl_cons, List.filterMap_cons, h] using ih init
    | some m =>
      simp only [List.foldl_cons, List.filterMap_cons, h, List.getLastD_cons]
      exact ih m

/-- C2 (amended): the functional location assigned to every row is the
match contributed by the last line that yields one — within a line the
three patterns are tried in their fixed order and the first leftmost match
longer than 8 characters is taken — and the fixed placeholder
11-18-XTGD-5403 when no line yields a match.  (The source's `break` leaves
only the inner pattern loop, so later lines overwrite earlier ones.) -/
theorem c2_func_loc_amended (text : List Char) (pdfName : Option (List Char)) :
    ∀ r ∈ formatTextToStructure text pdfName,
      r.functionalLocation =
        ((computeLines text).filterMap lineLocMatch).getLastD (str "11-18-XTGD-5403") := by
  intro r hr
  by_cases hs : pyStrip text = []
  · rw [formatTextToStructure, if_pos hs] at hr
    cases hr
  · rw [formatTextToStructure_eq pdfName hs] at hr
    have hfl : computeFuncLoc (computeLines text) =
        ((computeLines text).filterMap lineLocMatch).getLastD (str "11-18-XTGD-5403") :=
      foldl_loc_getLastD (computeLines text) (str "11-18-XTGD-5403")
    rcases List.mem_append.mp hr with h1 | h1
    · rw [← hfl]
      exact (templatePhase_row_fields h1).2
    · rw [← hfl]
      exact (scanPhase_row_fields h1).2

/-- Witness for C2 (amended) at the two-line counterexample text. -/
theorem c2_func_loc_amended_witness :
    (formatTextToStructure (str "11-18-ABCD-1234\n99-88-WXYZ-7777") none).all
      (fun r => r.functionalLocation ==
        ((computeLines (str "11-18-ABCD-1234\n99-88-WXYZ-7777")).filterMap
            lineLocMatch).getLastD (str "11-18-XTGD-5403")) = true := by
  rw [List.all_eq_true]
  intro r hr
  exact beq_iff_eq.mpr (c2_func_loc_amended _ none r hr)

/-- C3 counterexample: direct text of length 40 (fails the quality gate)
with empty OCR text keeps the direct text but reports method `failed`, not
`text_extraction` as the claim states for every non-OCR-keeping case. -/
theorem c3_selector_counterexample :
    selectTextMulti false (List.replicate 40 'a') [] =
      (List.replicate 40 'a', str "failed") ∧
    str "failed" ≠ str "text_extraction" := by decide

theorem selectTextMulti_auto (d o : List Char)
    (hgate : ¬(pyStrip d ≠ [] ∧ 100 < (pyStrip d).length ∧
      isLowQualityExtraction d = false)) :
    selectTextMulti false d o =
      if pyStrip o ≠ [] then
        if pyStrip d = [] ∨ 3 * (pyStrip d).length < 2 * (pyStrip o).length then
          (o, str "ocr_fallback")
        else (d, str "text_extraction")
      else (d, str "failed") := by
  simp only [selectTextMulti]
  rw [if_neg (by simp), if_neg hgate]

/-- C3 (amended): when the direct-extraction text fails the batch quality
gate, OCR text is kept (method `ocr_fallback`) exactly when it is non-empty
and the direct text was empty or the OCR text is more than 1.5 times
longer; otherwise the direct text is kept, with method `text_extraction`
when the OCR text was non-empty but with method `failed` when OCR returned
empty text.  The single-document selector keeps text by the same 1.5-times
rule under its 50-character gate (it reports no method). -/
theorem c3_selector_amended (d o : List Char)
    (hgate : ¬(pyStrip d ≠ [] ∧ 100 < (pyStrip d).length ∧
      isLowQualityExtraction d = false)) :
    (selectTextMulti false d o = (o, str "ocr_fallback") ↔
      pyStrip o ≠ [] ∧
        (pyStrip d = [] ∨ 3 * (pyStrip d).length < 2 * (pyStrip o).length)) ∧
    (pyStrip o ≠ [] →
      ¬(pyStrip d = [] ∨ 3 * (pyStrip d).length < 2 * (pyStrip o).length) →
      selectTextMulti false d o = (d, str "text_extraction")) ∧
    (pyStrip o = [] → selectTextMulti false d o = (d, str "failed")) ∧
    (pyStrip d ≠ [] →
      ¬(50 < (pyStrip d).length ∧ isLowQualityExtraction d = false) →
      selectTextSingle false d o =
        if pyStrip o ≠ [] ∧ 3 * (pyStrip d).length < 2 * (pyStrip o).length then o
        else d) := by
  have he := selectTextMulti_auto d o hgate
  refine ⟨?_, ?_, ?_, ?_⟩
  · by_cases ho : pyStrip o = []
    · rw [he, if_neg (by simpa using ho)]
      constructor
      · intro h
        exact ((by decide : str "failed" ≠ str "ocr_fallback")
          (congrArg Prod.snd h)).elim
      · intro h
        exact absurd ho h.1
    · rw [he, if_pos ho]
      by_cases hc : pyStrip d = [] ∨ 3 * (pyStrip d).length < 2 * (pyStrip o).length
      · rw [if_pos hc]
        exact ⟨fun _ => ⟨ho, hc⟩, fun _ => rfl⟩
      · rw [if_neg hc]
        constructor
        · intro h
          exact ((by decide : str "text_extraction" ≠ str "ocr_fallback")
            (congrArg Prod.snd h)).elim
        · intro h
          exact absurd h.2 hc
  · intro ho hc
    rw [he, if_pos ho, if_neg hc]
  · intro ho
    rw [he, if_neg (by simpa using ho)]
  · intro hd hg
    simp only [selectTextSingle]
    rw [if_neg (by simp), if_neg hd, if_neg hg]


/-- Witness for C3 (amended) at the spec's boundary example: direct length
40, OCR length 45 — 45 is not above 1.5 times 40, so the direct text is
kept with method `text_extraction`. -/
theorem c3_selector_amended_witness :
    selectTextMulti false (List.replicate 40 'a') (List.replicate 45 'b') =
      (List.replicate 40 'a', str "text_extraction") :=
  (c3_selector_amended (List.replicate 40 'a') (List.replicate 45 'b')
    (by decide)).2.1 (by decide) (by decide)

/-!  Lemmas for the pipeline claims. -/

theorem format_min_rows (text : List Char) (pdfName : Option (List Char))
    (h : ¬pyStrip text = []) :
    15 ≤ (formatTextToStructure text pdfName).length := by
  rw [formatTextToStructure_eq pdfName h, List.length_append,
    templatePhase_equipment_length]
  omega

theorem processOneDoc_shape (useOcr : Bool) (doc : DocInput) :
    (processOneDoc useOcr doc).1 ≠ [] ∧ (processOneDoc useOcr doc).2.isSome = true := by
  cases hexc : doc.exc with
  | some e =>
    simp only [processOneDoc, hexc]
    rw [if_neg (generateSampleAttributes_ne_nil doc.name)]
    exact ⟨generateSampleAttributes_ne_nil doc.name, rfl⟩
  | none =>
    simp only [processOneDoc, hexc]
    by_cases hsel : pyStrip (selectTextMulti useOcr doc.direct doc.ocrText).1 = []
    · rw [if_pos hsel, if_neg (generateSampleAttributes_ne_nil doc.name)]
      exact ⟨generateSampleAttributes_ne_nil doc.name, rfl⟩
    · rw [if_neg hsel]
      by_cases hf : formatTextToStructure (selectTextMulti useOcr doc.direct doc.ocrText).1
          (some doc.name) = []
      · rw [if_pos hf, if_neg (generateSampleAttributes_ne_nil doc.name)]
        exact ⟨generateSampleAttributes_ne_nil doc.name, rfl⟩
      · rw [if_neg hf]
        exact ⟨hf, rfl⟩

theorem length_filterMap_id_of_isSome {α : Type} (L : List (Option α))
    (h : ∀ x ∈ L, x.isSome = true) : (L.filterMap id).length = L.length := by
  induction L with
  | nil => rfl
  | cons a t ih =>
    cases a with
    | none => exact absurd (h none (by simp)) (by simp)
    | some b =>
      simp only [List.filterMap_cons, id, List.length_cons]
      rw [ih fun x hx => h x (List.mem_cons_of_mem _ hx)]

/-- C9: for every text whose trimmed form is non-empty, the structuring
engine emits all 15 template entries (the only empty-valued entry,
ENVIRONT, is reached with the counter at 5, not a multiple of 3) and hence
at least 15 rows; consequently, once the selected text is non-empty, the
single-document pipeline returns the structured rows — its sample-data
fallback and its structuring-failure error are unreachable. -/
theorem c9_nonempty_text_min_rows (text : List Char) (pdfName : Option (List Char))
    (direct ocrText name : List Char) (useOcr : Bool) :
    (∀ fl ref : List Char, (templatePhase fl ref equipmentAttributes 1).1.length = 15) ∧
    (pyStrip text ≠ [] →
      15 ≤ (formatTextToStructure text pdfName).length ∧
        formatTextToStructure text pdfName ≠ []) ∧
    (pyStrip (selectTextSingle useOcr direct ocrText) ≠ [] →
      processPdfToExcel direct ocrText name useOcr =
        Except.ok (formatTextToStructure (selectTextSingle useOcr direct ocrText)
          (some name))) := by
  refine ⟨templatePhase_equipment_length, ?_, ?_⟩
  · intro h
    have h15 := format_min_rows text pdfName h
    refine ⟨h15, ?_⟩
    intro hnil
    rw [hnil] at h15
    simp at h15
  · intro h
    have h15 := format_min_rows (selectTextSingle useOcr direct ocrText) (some name) h
    have hne : formatTextToStructure (selectTextSingle useOcr direct ocrText)
        (some name) ≠ [] := by
      intro hnil
      rw [hnil] at h15
      simp at h15
    simp only [processPdfToExcel]
    rw [if_neg h, if_neg hne, if_neg hne]

/-- Witness for C9 at a concrete non-empty text and pipeline input. -/
theorem c9_nonempty_text_min_rows_witness :
    15 ≤ (formatTextToStructure (str "hello") none).length ∧
    processPdfToExcel (str "some direct text") [] (str "doc") false =
      Except.ok (formatTextToStructure (selectTextSingle false (str "some direct text") [])
        (some (str "doc"))) :=
  ⟨((c9_nonempty_text_min_rows (str "hello") none [] [] [] false).2.1 (by decide)).1,
    (c9_nonempty_text_min_rows [] none (str "some direct text") [] (str "doc")
      false).2.2 (by decide)⟩

/-- C7: when both the direct extraction and OCR yield empty text, the
single-document pipeline surfaces an error to the caller, while the batch
pipeline still succeeds and records a `failed_with_sample` summary entry
for that document — it never silently drops it. -/
theorem c7_empty_text_handling (direct ocrText pdfName : List Char) (useOcr : Bool)
    (docs : List DocInput) (doc : DocInput) :
    (pyStrip direct = [] → pyStrip ocrText = [] →
      ∃ e, processPdfToExcel direct ocrText pdfName useOcr = Except.error e) ∧
    (doc ∈ docs → doc.exc = none → pyStrip doc.direct = [] → pyStrip doc.ocrText = [] →
      ∃ rows sums s,
        processMultiplePdfsToExcel docs useOcr = Except.ok (rows, sums) ∧
          s ∈ sums ∧ s.file = doc.name ∧ s.status = str "failed_with_sample") := by
  constructor
  · intro hd ho
    have hsel : pyStrip (selectTextSingle useOcr direct ocrText) = [] := by
      unfold selectTextSingle
      split_ifs <;> assumption
    have herr : processPdfToExcel direct ocrText pdfName useOcr =
        Except.error (str "No text could be extracted from the PDF. " ++
          (if useOcr then []
            else str "This might be a scanned PDF. Try using --ocr flag. ") ++
          str "Ensure Tesseract and Poppler are properly installed.") := by
      simp only [processPdfToExcel]
      rw [if_pos hsel]
    exact ⟨_, herr⟩
  · intro hmem hexc hd ho
    have hsel2 : pyStrip (selectTextMulti useOcr doc.direct doc.ocrText).1 = [] := by
      unfold selectTextMulti
      split_ifs <;> simp [hd, ho]
    have hone : processOneDoc useOcr doc =
        (generateSampleAttributes doc.name,
          some ⟨doc.name, str "failed_with_sample", str "fallback",
            (generateSampleAttributes doc.name).length, 0, none⟩) := by
      simp only [processOneDoc, hexc]
      rw [if_pos hsel2, if_neg (generateSampleAttributes_ne_nil doc.name)]
    have hrows : batchRows useOcr docs ≠ [] := by
      intro hnil
      rw [batchRows, List.flatten_eq_nil_iff] at hnil
      have hm : (processOneDoc useOcr doc).1 ∈
          docs.map (fun d => (processOneDoc useOcr d).1) :=
        List.mem_map_of_mem _ hmem
      have := hnil _ hm
      rw [hone] at this
      exact generateSampleAttributes_ne_nil doc.name this
    refine ⟨batchRows useOcr docs, batchSummaries useOcr docs,
      ⟨doc.name, str "failed_with_sample", str "fallback",
        (generateSampleAttributes doc.name).length, 0, none⟩, ?_, ?_, rfl, rfl⟩
    · simp only [processMultiplePdfsToExcel]
      rw [if_neg hrows]
    · rw [batchSummaries]
      refine List.mem_filterMap.mpr ⟨some _, ?_, rfl⟩
      have hm : (processOneDoc useOcr doc).2 ∈
          docs.map (fun d => (processOneDoc useOcr d).2) :=
        List.mem_map_of_mem _ hmem
      rw [hone] at hm
      exact hm

/-- Witness for C7 with one document whose two extractions are empty. -/
theorem c7_empty_text_handling_witness :
    (∃ e, processPdfToExcel [] [] (str "doc") false = Except.error e) ∧
    ∃ rows sums s,
      processMultiplePdfsToExcel [⟨str "doc", [], [], none⟩] false =
          Except.ok (rows, sums) ∧
        s ∈ sums ∧ s.file = str "doc" ∧ s.status = str "failed_with_sample" :=
  ⟨(c7_empty_text_handling [] [] (str "doc") false [⟨str "doc", [], [], none⟩]
      ⟨str "doc", [], [], none⟩).1 rfl rfl,
    (c7_empty_text_handling [] [] (str "doc") false [⟨str "doc", [], [], none⟩]
      ⟨str "doc", [], [], none⟩).2 (by simp) rfl rfl rfl⟩

/-- C8: the batch pipeline raises an error exactly when the accumulated row
list over all documents (sample fallbacks included) is empty; every
document — failing ones included — contributes its own summary entry and
the loop runs to the end, so a non-empty batch always returns a result with
one summary per document. -/
theorem c8_batch_error_iff (docs : List DocInput) (useOcr : Bool) :
    ((∃ e, processMultiplePdfsToExcel docs useOcr = Except.error e) ↔
      batchRows useOcr docs = []) ∧
    (docs ≠ [] →
      ∃ rows sums,
        processMultiplePdfsToExcel docs useOcr = Except.ok (rows, sums) ∧
          sums.length = docs.length) := by
  constructor
  · by_cases hb : batchRows useOcr docs = []
    · simp only [processMultiplePdfsToExcel]
      rw [if_pos hb]
      exact ⟨fun _ => hb, fun _ => ⟨_, rfl⟩⟩
    · simp only [processMultiplePdfsToExcel]
      rw [if_neg hb]
      constructor
      · intro ⟨e, he⟩
        cases he
      · intro h
        exact absurd h hb
  · intro hd
    have hrows : batchRows useOcr docs ≠ [] := by
      intro hnil
      rw [batchRows, List.flatten_eq_nil_iff] at hnil
      cases docs with
      | nil => exact hd rfl
      | cons d t => exact (processOneDoc_shape useOcr d).1 (hnil _ (by simp))
    refine ⟨batchRows useOcr docs, batchSummaries useOcr docs, ?_, ?_⟩
    · simp only [processMultiplePdfsToExcel]
      rw [if_neg hrows]
    · rw [batchSummaries, length_filterMap_id_of_isSome, List.length_map]
      intro x hx
      rcases List.mem_map.mp hx with ⟨d, _, rfl⟩
      exact (processOneDoc_shape useOcr d).2

/-- Witness for C8: the empty batch errors; a one-document batch returns a
single summary even though that document has no extractable text. -/
theorem c8_batch_error_iff_witness :
    (∃ e, processMultiplePdfsToExcel [] false = Except.error e) ∧
    ∃ rows sums,
      processMultiplePdfsToExcel [⟨str "d", [], [], some (str "boom")⟩] false =
          Except.ok (rows, sums) ∧
        sums.length = 1 :=
  ⟨(c8_batch_error_iff [] false).1.mpr rfl,
    (c8_batch_error_iff [⟨str "d", [], [], some (str "boom")⟩] false).2 (by simp)⟩

end PdfToExcel
